import Mathlib

/-!
# Verification of the Seismi BLE data collector core

Shallow embedding of the sensor-data pipeline of `BLEDataCollector`
(`src/seismi.ts`, full variant with sliding buffers): packet decoding,
timestamp reconstruction, the two sliding buffers, the record log, CSV
export, and `stop`.

Modelling conventions:
* A notification buffer is a `List Nat` of byte values (each `< 256` in
  reality; theorems that need the byte bound take it as a hypothesis).
  `DataView.getUint8` is modelled by `List.getD · 0`; the code only reads
  in-bounds offsets, guarded by the initial length check.
* JS numbers that hold timestamps are modelled by `Rat` (all arithmetic
  performed on them here — sums of integers and multiples of 2.5 — is
  exact in binary64, so `Rat` reproduces it exactly).  `Date.now()`
  results are `Nat` milliseconds.
* The `genesisTS` record, keyed by arbitrary numeric packet type, is a
  total function `Nat → Option Nat`; the JS truthiness test
  `!this.genesisTS[packetType]` (true for both `null`/missing and `0`)
  is modelled by `jsFalsy`.
* Arrays are modelled as Lean lists (values).  A second, heap-level model
  (`HCollector` below) additionally tracks array identity, for claims
  about aliasing of returned snapshots.
* The `prefix` string field of the class is used only by commented-out
  download code and is omitted.  `console.log` calls are effect-free for
  the collector state and are omitted.
-/

namespace Seismi

/-- `PACKET_TYPE_ACC` from the source. -/
def PACKET_TYPE_ACC : Nat := 1

/-- `PACKET_TYPE_PPG` from the source. -/
def PACKET_TYPE_PPG : Nat := 2

/-- `ACC_SAMPLE_PERIOD_MS` from the source (16 ms). -/
def ACC_SAMPLE_PERIOD_MS : Rat := 16

/-- `PPG_SAMPLE_PERIOD_MS` from the source (2.5 ms). -/
def PPG_SAMPLE_PERIOD_MS : Rat := 2.5

/-- `BUFFER_DURATION_MS = 60 * 1000` from the source. -/
def BUFFER_DURATION_MS : Rat := 60 * 1000

/-- The `SensorDataPoint` record type of the source. -/
structure SensorDataPoint where
  timestamp_ms : Rat
  value : Nat
  type : Nat
  deriving DecidableEq, Repr

/-- One cell of a CSV row: the source stores `(string | number)[][]`. -/
inductive Cell where
  | str (s : String)
  | num (q : Rat)
  deriving DecidableEq, Repr

/-- The mutable state of one `BLEDataCollector` instance (the fields the
sensor-logic core touches; the BLE handles are abstracted to the single
`connected` flag that `stop` consults). -/
structure CollectorState where
  genesisTS : Nat → Option Nat
  csvRows : List (List Cell)
  accDataPoints : List SensorDataPoint
  ppgDataPoints : List SensorDataPoint
  collectingType : Option Nat
  connected : Bool

/-- Collector state right after construction (and connection: `connected`
starts true so that `stop` has its disconnect branch to take). -/
def initState : CollectorState :=
  { genesisTS := fun _ => none
    csvRows := []
    accDataPoints := []
    ppgDataPoints := []
    collectingType := none
    connected := true }

/-- JS truthiness test `!x` on a `number | null` slot: `null` (absent) and
`0` are falsy. -/
def jsFalsy : Option Nat → Bool
  | none => true
  | some t => t == 0

/-- `DataView.getUint8(k)` on the notification buffer. -/
def getUint8 (buf : List Nat) (k : Nat) : Nat := buf.getD k 0

/-- `DataView.getUint16(k, true)` — little-endian 16-bit read. -/
def getUint16le (buf : List Nat) (k : Nat) : Nat :=
  getUint8 buf k ||| (getUint8 buf (k + 1) <<< 8)

/-- `sampleCount = Math.floor((byteLength - 3) / 3)` (the handler only
uses it when `byteLength ≥ 3`, where JS floor division and truncating
`Nat` division agree). -/
def sampleCount (buf : List Nat) : Nat := (buf.length - 3) / 3

/-- The 24-bit little-endian sample at index `i`:
`getUint8(offset) | getUint8(offset+1) << 8 | getUint8(offset+2) << 16`
with `offset = 3 + i * 3`. -/
def sampleVal (buf : List Nat) (i : Nat) : Nat :=
  getUint8 buf (3 + i * 3) |||
    (getUint8 buf (3 + i * 3 + 1) <<< 8) |||
    (getUint8 buf (3 + i * 3 + 2) <<< 16)

/-- The header row pushed on first ACC genesis. -/
def accHeaderRow : List Cell := [.str "timestamp_ms", .str "magnitude_ug"]

/-- The header row pushed on first genesis of any non-ACC type. -/
def ppgHeaderRow : List Cell := [.str "timestamp_ms", .str "green"]

/-- The genesis block of `handleNotification`: if `genesisTS[packetType]`
is falsy it is set to `now`, a type-dependent header row is pushed, and
`collectingType` is recorded. -/
def genesisStep (s : CollectorState) (now : Nat) (packetType : Nat) :
    CollectorState :=
  if jsFalsy (s.genesisTS packetType) then
    { s with
      genesisTS := fun t => if t = packetType then some now else s.genesisTS t
      csvRows := s.csvRows ++
        [if packetType = PACKET_TYPE_ACC then accHeaderRow else ppgHeaderRow]
      collectingType := some packetType }
  else s

/-- ACC timestamp for sample `i`:
`genesisTS[ACC] ?? 0 + (packetCounter * 5 + i) * ACC_SAMPLE_PERIOD_MS`. -/
def accTs (g : Nat) (packetCounter i : Nat) : Rat :=
  (g : Rat) + ((packetCounter * 5 + i : Nat) : Rat) * ACC_SAMPLE_PERIOD_MS

/-- PPG timestamp for sample `i`:
`genesisTS[PPG] ?? 0 + (packetCounter * 5 + i) * PPG_SAMPLE_PERIOD_MS`. -/
def ppgTs (g : Nat) (packetCounter i : Nat) : Rat :=
  (g : Rat) + ((packetCounter * 5 + i : Nat) : Rat) * PPG_SAMPLE_PERIOD_MS

/-- One iteration `i` of the sample loop of `handleNotification`: decode
the 24-bit value, and in the per-type branches push a CSV row and a data
point.  The two `if`s are sequential in the source (not `else if`). -/
def processSample (packetType packetCounter : Nat) (buf : List Nat)
    (s : CollectorState) (i : Nat) : CollectorState :=
  let value := sampleVal buf i
  let s1 :=
    if packetType = PACKET_TYPE_ACC then
      let ts := accTs ((s.genesisTS PACKET_TYPE_ACC).getD 0) packetCounter i
      { s with
        csvRows := s.csvRows ++ [[.num ts, .num (value : Rat)]]
        accDataPoints := s.accDataPoints ++
          [{ timestamp_ms := ts, value := value, type := PACKET_TYPE_ACC }] }
    else s
  if packetType = PACKET_TYPE_PPG then
    let ts := ppgTs ((s1.genesisTS PACKET_TYPE_PPG).getD 0) packetCounter i
    { s1 with
      csvRows := s1.csvRows ++ [[.num ts, .num (value : Rat)]]
      ppgDataPoints := s1.ppgDataPoints ++
        [{ timestamp_ms := ts, value := value, type := PACKET_TYPE_PPG }] }
  else s1

/-- JS `Array.prototype.findIndex`: index of the first element satisfying
`p`, or `-1` when there is none. -/
def jsFindIndex (p : SensorDataPoint → Bool) (l : List SensorDataPoint) :
    Int :=
  match l.findIdx? p with
  | some i => (i : Int)
  | none => -1

/-- Body shared verbatim by `trimAccBuffer` and `trimPpgBuffer` (the two
methods are textually identical up to the field they act on): if the list
is nonempty, compute `cutoffTs = latest - BUFFER_DURATION_MS`, find the
first index with `timestamp_ms ≥ cutoffTs`, and when it is positive keep
the slice from there on. -/
def trimList (l : List SensorDataPoint) : List SensorDataPoint :=
  match l.getLast? with
  | none => l
  | some last =>
    let cutoffTs := last.timestamp_ms - BUFFER_DURATION_MS
    let firstValidIndex :=
      jsFindIndex (fun d => decide (cutoffTs ≤ d.timestamp_ms)) l
    if 0 < firstValidIndex then l.drop firstValidIndex.toNat else l

/-- `trimAccBuffer` from the source. -/
def trimAccBuffer (s : CollectorState) : CollectorState :=
  { s with accDataPoints := trimList s.accDataPoints }

/-- `trimPpgBuffer` from the source. -/
def trimPpgBuffer (s : CollectorState) : CollectorState :=
  { s with ppgDataPoints := trimList s.ppgDataPoints }

/-- `handleNotification(dataView)`: drop packets shorter than the 3-byte
header or with no samples; otherwise run the genesis block, the sample
loop, then `trimAccBuffer(); trimPpgBuffer()`.  (The trailing `onData`
callback receives `accDataPoints` and mutates nothing.) -/
def handleNotification (s : CollectorState) (now : Nat) (buf : List Nat) :
    CollectorState :=
  if buf.length < 3 then s
  else
    let packetType := getUint8 buf 0
    let packetCounter := getUint16le buf 1
    if sampleCount buf = 0 then s
    else
      trimPpgBuffer (trimAccBuffer
        ((List.range (sampleCount buf)).foldl
          (processSample packetType packetCounter buf)
          (genesisStep s now packetType)))

/-- `getAccData()` — returns `this.accDataPoints` (value level; array
identity is treated in the heap model below). -/
def getAccData (s : CollectorState) : List SensorDataPoint :=
  s.accDataPoints

/-- `getPpgData()` — returns `this.ppgDataPoints`. -/
def getPpgData (s : CollectorState) : List SensorDataPoint :=
  s.ppgDataPoints

/-- `stop()`: disconnect if connected; no collector data is touched. -/
def stop (s : CollectorState) : CollectorState :=
  if s.connected then { s with connected := false } else s

/-- ECMAScript number-to-string on the rationals reachable in this
program: every stored number is an integer or an odd multiple of one half
(timestamps are `genesis + k * 16` or `genesis + k * 2.5`), printed by JS
as the plain integer, resp. with a trailing `.5` after the
truncated-toward-zero integer part. -/
def jsNumToString (q : Rat) : String :=
  if q.den = 1 then toString q.num else toString (q.num.tdiv 2) ++ ".5"

/-- JS `Array.prototype.join` element conversion for one CSV cell. -/
def renderCell : Cell → String
  | .str s => s
  | .num q => jsNumToString q

/-- `downloadCSV()`: `csvRows.map(r => r.join(",")).join("\n")` (the
serialized text; the surrounding blob/anchor download code is commented
out in the source). -/
def downloadCSV (s : CollectorState) : String :=
  String.intercalate "\n"
    (s.csvRows.map fun r => String.intercalate "," (r.map renderCell))

/-- A whole session: fold `handleNotification` over a list of
`(wall-clock time, buffer)` notification events. -/
def processEvents (s : CollectorState) (evs : List (Nat × List Nat)) :
    CollectorState :=
  evs.foldl (fun s e => handleNotification s e.1 e.2) s

/-- Both sliding buffers are fixed points of `trimList` — the invariant
every state reachable from `initState` satisfies, since each processed
batch ends with the two trims. -/
def Trimmed (s : CollectorState) : Prop :=
  trimList s.accDataPoints = s.accDataPoints ∧
    trimList s.ppgDataPoints = s.ppgDataPoints

/-- A state whose ACC genesis slot is already set (used to instantiate
universally quantified claim theorems at a concrete input). -/
def genesisOneState : CollectorState :=
  { initState with
    genesisTS := fun t => if t = PACKET_TYPE_ACC then some 5 else none }

/-!
## Heap-level model

The value-level model above treats the JS arrays as immutable lists.  The
snapshot accessors, however, return `this.accDataPoints` itself — the
array object, not a copy — so claims about what a previously returned
snapshot observes after further internal mutation need array identity.
`HCollector` models the heap explicitly: the store is a list of arrays,
an array reference is an index into it, `push` mutates the array in
place, and `slice` (used by the trims) allocates a fresh array and
rebinds the field.  Every operation is the same source code as above,
re-read at this lower level.
-/

/-- Heap-level collector state: `accRef`/`ppgRef` are the array objects
currently bound to `this.accDataPoints`/`this.ppgDataPoints`. -/
structure HCollector where
  store : List (List SensorDataPoint)
  genesisTS : Nat → Option Nat
  csvRows : List (List Cell)
  accRef : Nat
  ppgRef : Nat
  collectingType : Option Nat

/-- Fresh heap state: two distinct empty arrays. -/
def hInit : HCollector :=
  { store := [[], []]
    genesisTS := fun _ => none
    csvRows := []
    accRef := 0
    ppgRef := 1
    collectingType := none }

/-- Read the array object behind a reference. -/
def derefH (s : HCollector) (r : Nat) : List SensorDataPoint :=
  s.store.getD r []

/-- JS `Array.prototype.push`: in-place append to the referenced array. -/
def pushRef (s : HCollector) (r : Nat) (x : SensorDataPoint) : HCollector :=
  { s with store := s.store.set r (s.store.getD r [] ++ [x]) }

/-- `getAccData()` at heap level: returns the array reference itself. -/
def getAccDataH (s : HCollector) : Nat := s.accRef

/-- `getPpgData()` at heap level: returns the array reference itself. -/
def getPpgDataH (s : HCollector) : Nat := s.ppgRef

/-- The genesis block of `handleNotification`, heap level. -/
def genesisStepH (s : HCollector) (now : Nat) (packetType : Nat) :
    HCollector :=
  if jsFalsy (s.genesisTS packetType) then
    { s with
      genesisTS := fun t => if t = packetType then some now else s.genesisTS t
      csvRows := s.csvRows ++
        [if packetType = PACKET_TYPE_ACC then accHeaderRow else ppgHeaderRow]
      collectingType := some packetType }
  else s

/-- One iteration of the sample loop, heap level: the `push` calls
mutate the referenced arrays in place. -/
def processSampleH (packetType packetCounter : Nat) (buf : List Nat)
    (s : HCollector) (i : Nat) : HCollector :=
  let value := sampleVal buf i
  let s1 :=
    if packetType = PACKET_TYPE_ACC then
      let ts := accTs ((s.genesisTS PACKET_TYPE_ACC).getD 0) packetCounter i
      pushRef { s with csvRows := s.csvRows ++ [[.num ts, .num (value : Rat)]] }
        s.accRef
        { timestamp_ms := ts, value := value, type := PACKET_TYPE_ACC }
    else s
  if packetType = PACKET_TYPE_PPG then
    let ts := ppgTs ((s1.genesisTS PACKET_TYPE_PPG).getD 0) packetCounter i
    pushRef { s1 with csvRows := s1.csvRows ++ [[.num ts, .num (value : Rat)]] }
      s1.ppgRef
      { timestamp_ms := ts, value := value, type := PACKET_TYPE_PPG }
  else s1

/-- `trimAccBuffer`, heap level: `slice` allocates a fresh array (appended
to the store) and the assignment rebinds `accRef` to it; the old array
object is left as it was. -/
def trimAccBufferH (s : HCollector) : HCollector :=
  let l := derefH s s.accRef
  match l.getLast? with
  | none => s
  | some last =>
    let cutoffTs := last.timestamp_ms - BUFFER_DURATION_MS
    let firstValidIndex :=
      jsFindIndex (fun d => decide (cutoffTs ≤ d.timestamp_ms)) l
    if 0 < firstValidIndex then
      { s with
        store := s.store ++ [l.drop firstValidIndex.toNat]
        accRef := s.store.length }
    else s

/-- `trimPpgBuffer`, heap level. -/
def trimPpgBufferH (s : HCollector) : HCollector :=
  let l := derefH s s.ppgRef
  match l.getLast? with
  | none => s
  | some last =>
    let cutoffTs := last.timestamp_ms - BUFFER_DURATION_MS
    let firstValidIndex :=
      jsFindIndex (fun d => decide (cutoffTs ≤ d.timestamp_ms)) l
    if 0 < firstValidIndex then
      { s with
        store := s.store ++ [l.drop firstValidIndex.toNat]
        ppgRef := s.store.length }
    else s

/-- `handleNotification`, heap level. -/
def handleNotificationH (s : HCollector) (now : Nat) (buf : List Nat) :
    HCollector :=
  if buf.length < 3 then s
  else
    let packetType := getUint8 buf 0
    let packetCounter := getUint16le buf 1
    if sampleCount buf = 0 then s
    else
      trimPpgBufferH (trimAccBufferH
        ((List.range (sampleCount buf)).foldl
          (processSampleH packetType packetCounter buf)
          (genesisStepH s now packetType)))

/-! ## Structural lemmas about the pipeline stages -/

theorem processSample_genesisTS (pt c : Nat) (buf : List Nat)
    (s : CollectorState) (i : Nat) :
    (processSample pt c buf s i).genesisTS = s.genesisTS := by
  unfold processSample
  dsimp only
  split <;> split <;> rfl

theorem processSample_collectingType (pt c : Nat) (buf : List Nat)
    (s : CollectorState) (i : Nat) :
    (processSample pt c buf s i).collectingType = s.collectingType := by
  unfold processSample
  dsimp only
  split <;> split <;> rfl

theorem processSample_connected (pt c : Nat) (buf : List Nat)
    (s : CollectorState) (i : Nat) :
    (processSample pt c buf s i).connected = s.connected := by
  unfold processSample
  dsimp only
  split <;> split <;> rfl

theorem sampleLoop_genesisTS (pt c : Nat) (buf : List Nat)
    (s : CollectorState) (n : Nat) :
    ((List.range n).foldl (processSample pt c buf) s).genesisTS =
      s.genesisTS := by
  induction n generalizing s with
  | zero => rfl
  | succ n ih =>
      rw [List.range_succ, List.foldl_append]
      simp only [List.foldl_cons, List.foldl_nil, processSample_genesisTS, ih]

theorem sampleLoop_collectingType (pt c : Nat) (buf : List Nat)
    (s : CollectorState) (n : Nat) :
    ((List.range n).foldl (processSample pt c buf) s).collectingType =
      s.collectingType := by
  induction n generalizing s with
  | zero => rfl
  | succ n ih =>
      rw [List.range_succ, List.foldl_append]
      simp only [List.foldl_cons, List.foldl_nil,
        processSample_collectingType, ih]

theorem sampleLoop_connected (pt c : Nat) (buf : List Nat)
    (s : CollectorState) (n : Nat) :
    ((List.range n).foldl (processSample pt c buf) s).connected =
      s.connected := by
  induction n generalizing s with
  | zero => rfl
  | succ n ih =>
      rw [List.range_succ, List.foldl_append]
      simp only [List.foldl_cons, List.foldl_nil, processSample_connected, ih]

/-- Full characterization of the sample loop on an ACC packet. -/
theorem sampleLoop_acc (c : Nat) (buf : List Nat) (s : CollectorState)
    (n : Nat) :
    (List.range n).foldl (processSample PACKET_TYPE_ACC c buf) s =
      { s with
        csvRows := s.csvRows ++ (List.range n).map (fun i =>
          [Cell.num (accTs ((s.genesisTS PACKET_TYPE_ACC).getD 0) c i),
           Cell.num ((sampleVal buf i : Nat) : Rat)])
        accDataPoints := s.accDataPoints ++ (List.range n).map (fun i =>
          { timestamp_ms := accTs ((s.genesisTS PACKET_TYPE_ACC).getD 0) c i
            value := sampleVal buf i
            type := PACKET_TYPE_ACC }) } := by
  induction n with
  | zero => simp
  | succ n ih =>
      rw [List.range_succ, List.foldl_append, ih]
      simp [processSample, PACKET_TYPE_ACC, PACKET_TYPE_PPG,
        List.range_succ]

/-- Full characterization of the sample loop on a PPG packet. -/
theorem sampleLoop_ppg (c : Nat) (buf : List Nat) (s : CollectorState)
    (n : Nat) :
    (List.range n).foldl (processSample PACKET_TYPE_PPG c buf) s =
      { s with
        csvRows := s.csvRows ++ (List.range n).map (fun i =>
          [Cell.num (ppgTs ((s.genesisTS PACKET_TYPE_PPG).getD 0) c i),
           Cell.num ((sampleVal buf i : Nat) : Rat)])
        ppgDataPoints := s.ppgDataPoints ++ (List.range n).map (fun i =>
          { timestamp_ms := ppgTs ((s.genesisTS PACKET_TYPE_PPG).getD 0) c i
            value := sampleVal buf i
            type := PACKET_TYPE_PPG }) } := by
  induction n with
  | zero => simp
  | succ n ih =>
      rw [List.range_succ, List.foldl_append, ih]
      simp [processSample, PACKET_TYPE_ACC, PACKET_TYPE_PPG,
        List.range_succ]

/-- The sample loop is the identity on a packet whose type byte is
neither ACC nor PPG. -/
theorem sampleLoop_other (pt c : Nat) (buf : List Nat) (s : CollectorState)
    (n : Nat) (h1 : pt ≠ PACKET_TYPE_ACC) (h2 : pt ≠ PACKET_TYPE_PPG) :
    (List.range n).foldl (processSample pt c buf) s = s := by
  induction n with
  | zero => rfl
  | succ n ih =>
      rw [List.range_succ, List.foldl_append, ih]
      simp [processSample, h1, h2]

/-! ## Lemmas about the trim step -/

theorem drop_findIdx?_eq_dropWhile {α : Type} (p : α → Bool) :
    ∀ (l : List α) (i : Nat), l.findIdx? p = some i →
      l.drop i = l.dropWhile (fun a => !(p a))
  | [], i, h => by simp at h
  | x :: xs, i, h => by
      rw [List.findIdx?_cons] at h
      by_cases hx : p x
      · rw [if_pos hx] at h
        obtain rfl : (0 : Nat) = i := Option.some.inj h
        simp [List.dropWhile_cons, hx]
      · rw [if_neg hx, List.findIdx?_succ] at h
        obtain ⟨j, hj, rfl⟩ := Option.map_eq_some'.mp h
        rw [List.drop_succ_cons, List.dropWhile_cons]
        simp only [hx, Bool.not_false, if_pos]
        exact drop_findIdx?_eq_dropWhile p xs j hj

theorem findIdx?_zero_dropWhile {α : Type} (p : α → Bool) :
    ∀ (l : List α), l.findIdx? p = some 0 →
      l.dropWhile (fun a => !(p a)) = l
  | [], h => by simp at h
  | x :: xs, h => by
      rw [List.findIdx?_cons] at h
      by_cases hx : p x
      · simp [List.dropWhile_cons, hx]
      · rw [if_neg hx, List.findIdx?_succ] at h
        obtain ⟨j, _, hj1⟩ := Option.map_eq_some'.mp h
        omega

/-- The head of a `dropWhile` result falsifies the dropped predicate. -/
theorem dropWhile_head_false {α : Type} {q : α → Bool} :
    ∀ (l : List α) (x : α) (xs : List α), l.dropWhile q = x :: xs →
      q x = false
  | [], x, xs, h => by simp at h
  | a :: l, x, xs, h => by
      rw [List.dropWhile_cons] at h
      by_cases ha : q a
      · exact dropWhile_head_false l x xs (by simpa [ha] using h)
      · rw [if_neg ha] at h
        obtain rfl : a = x := (List.cons.injEq _ _ _ _ ▸ h).1
        simpa using ha

/-- `trim` keeps exactly the entries from the first index whose timestamp
is `≥ latest − BUFFER_DURATION_MS` on: it equals a `dropWhile` of the
strictly-older prefix.  (Needs no sortedness: the last entry always
satisfies the cutoff, so `findIndex` cannot return `-1`.) -/
theorem trimList_eq_dropWhile (l : List SensorDataPoint)
    (last : SensorDataPoint) (h : l.getLast? = some last) :
    trimList l =
      l.dropWhile (fun d =>
        decide (d.timestamp_ms < last.timestamp_ms - BUFFER_DURATION_MS)) := by
  have hnot : (fun d : SensorDataPoint =>
      decide (d.timestamp_ms < last.timestamp_ms - BUFFER_DURATION_MS)) =
      (fun d : SensorDataPoint =>
        !(decide (last.timestamp_ms - BUFFER_DURATION_MS ≤ d.timestamp_ms))) := by
    funext d
    rw [← decide_not]
    exact decide_eq_decide.mpr (lt_iff_not_le)
  have hlastmem : last ∈ l := List.mem_of_getLast?_eq_some h
  have hsome : (l.findIdx? (fun d =>
      decide (last.timestamp_ms - BUFFER_DURATION_MS ≤ d.timestamp_ms))).isSome := by
    rw [Option.isSome_iff_ne_none]
    intro hnone
    have h2 := List.findIdx?_eq_none_iff.mp hnone last hlastmem
    simp only [decide_eq_false_iff_not] at h2
    exact h2 (sub_le_self _ (by norm_num [BUFFER_DURATION_MS]))
  obtain ⟨i, hi⟩ := Option.isSome_iff_exists.mp hsome
  unfold trimList jsFindIndex
  rw [h]
  dsimp only
  rw [hi]
  dsimp only
  cases i with
  | zero =>
      rw [if_neg (by omega)]
      rw [hnot, findIdx?_zero_dropWhile _ l hi]
  | succ j =>
      rw [if_pos (by omega)]
      rw [hnot, ← drop_findIdx?_eq_dropWhile _ l (j + 1) hi]
      rfl

/-- In a timestamp-sorted list every element is bounded by the last. -/
theorem pairwise_le_getLast :
    ∀ (l : List SensorDataPoint) (last : SensorDataPoint),
      l.getLast? = some last →
      l.Pairwise (fun a b => a.timestamp_ms ≤ b.timestamp_ms) →
      ∀ x ∈ l, x.timestamp_ms ≤ last.timestamp_ms
  | [], _, h, _ => by simp at h
  | [x], last, h, _ => by
      obtain rfl : x = last := by simpa using h
      intro y hy
      obtain rfl : y = x := by simpa using hy
      exact le_refl _
  | x :: b :: l, last, h, hp => by
      rw [List.getLast?_cons_cons] at h
      intro y hy
      rcases List.mem_cons.mp hy with rfl | hy'
      · exact (List.pairwise_cons.mp hp).1 last
          (List.mem_of_getLast?_eq_some h)
      · exact pairwise_le_getLast (b :: l) last h
          (List.pairwise_cons.mp hp).2 y hy'

/-- In a timestamp-sorted list, every entry surviving the `dropWhile`
cutoff is at or above the cutoff. -/
theorem dropWhile_mem_ge (cutoff : Rat) :
    ∀ (l : List SensorDataPoint),
      l.Pairwise (fun a b => a.timestamp_ms ≤ b.timestamp_ms) →
      ∀ x ∈ l.dropWhile (fun d => decide (d.timestamp_ms < cutoff)),
        cutoff ≤ x.timestamp_ms
  | [], _ => by simp
  | a :: l, hp => by
      rw [List.dropWhile_cons]
      by_cases ha : a.timestamp_ms < cutoff
      · rw [if_pos (by simpa using ha)]
        exact dropWhile_mem_ge cutoff l (List.pairwise_cons.mp hp).2
      · rw [if_neg (by simpa using ha)]
        intro x hx
        push_neg at ha
        rcases List.mem_cons.mp hx with rfl | hx'
        · exact ha
        · exact le_trans ha ((List.pairwise_cons.mp hp).1 x hx')

/-- Trimming is idempotent: a freshly trimmed buffer is left unchanged by
another trim.  (This is the invariant every reachable buffer satisfies,
since `handleNotification` ends each batch with the two trims.) -/
theorem trimList_idem (l : List SensorDataPoint) :
    trimList (trimList l) = trimList l := by
  rcases hl : l.getLast? with _ | last
  · rw [List.getLast?_eq_none_iff.mp hl]
    rfl
  · rw [trimList_eq_dropWhile l last hl]
    rcases hr : l.dropWhile (fun d =>
        decide (d.timestamp_ms < last.timestamp_ms - BUFFER_DURATION_MS)) with
      _ | ⟨x, xs⟩
    · rw [hr]
      rfl
    · rw [hr]
      have hsuf : (x :: xs) <:+ l := by
        have h0 := List.dropWhile_suffix
          (fun d : SensorDataPoint =>
            decide (d.timestamp_ms < last.timestamp_ms - BUFFER_DURATION_MS))
          (l := l)
        rwa [hr] at h0
      obtain ⟨t, ht⟩ := hsuf
      have hlast' : (x :: xs).getLast? = some last := by
        have h1 := hl
        rw [← ht, List.getLast?_append] at h1
        rcases hx : (x :: xs).getLast? with _ | y
        · simp at hx
        · rw [hx] at h1
          simpa using h1
      have hxfalse := dropWhile_head_false _ _ _ hr
      have hxge : last.timestamp_ms - BUFFER_DURATION_MS ≤ x.timestamp_ms :=
        le_of_not_lt (of_decide_eq_false hxfalse)
      unfold trimList jsFindIndex
      rw [hlast']
      dsimp only
      rw [List.findIdx?_cons, if_pos (decide_eq_true hxge)]
      simp

/-! ## Field lemmas for the genesis block, the trims, and the handler -/

theorem genesisStep_accDataPoints (s : CollectorState) (now pt : Nat) :
    (genesisStep s now pt).accDataPoints = s.accDataPoints := by
  unfold genesisStep
  split <;> rfl

theorem genesisStep_ppgDataPoints (s : CollectorState) (now pt : Nat) :
    (genesisStep s now pt).ppgDataPoints = s.ppgDataPoints := by
  unfold genesisStep
  split <;> rfl

theorem genesisStep_connected (s : CollectorState) (now pt : Nat) :
    (genesisStep s now pt).connected = s.connected := by
  unfold genesisStep
  split <;> rfl

theorem genesisStep_genesisTS_self (s : CollectorState) (now pt : Nat) :
    (genesisStep s now pt).genesisTS pt =
      if jsFalsy (s.genesisTS pt) then some now else s.genesisTS pt := by
  unfold genesisStep
  split <;> simp_all

theorem genesisStep_genesisTS_other (s : CollectorState) (now pt t : Nat)
    (h : t ≠ pt) :
    (genesisStep s now pt).genesisTS t = s.genesisTS t := by
  unfold genesisStep
  split <;> simp [h]

theorem genesisStep_csvRows (s : CollectorState) (now pt : Nat) :
    (genesisStep s now pt).csvRows = s.csvRows ++
      (if jsFalsy (s.genesisTS pt) then
        [if pt = PACKET_TYPE_ACC then accHeaderRow else ppgHeaderRow]
       else []) := by
  unfold genesisStep
  split <;> simp_all

theorem trimAccBuffer_genesisTS (s : CollectorState) :
    (trimAccBuffer s).genesisTS = s.genesisTS := rfl

theorem trimPpgBuffer_genesisTS (s : CollectorState) :
    (trimPpgBuffer s).genesisTS = s.genesisTS := rfl

theorem trimAccBuffer_csvRows (s : CollectorState) :
    (trimAccBuffer s).csvRows = s.csvRows := rfl

theorem trimPpgBuffer_csvRows (s : CollectorState) :
    (trimPpgBuffer s).csvRows = s.csvRows := rfl

/-- Unfolding of `handleNotification` on a packet that passes both guard
checks: genesis block, then sample loop, then the two trims. -/
theorem handleNotification_valid (s : CollectorState) (now : Nat)
    (buf : List Nat) (h3 : ¬ buf.length < 3) (hn : sampleCount buf ≠ 0) :
    handleNotification s now buf =
      trimPpgBuffer (trimAccBuffer
        ((List.range (sampleCount buf)).foldl
          (processSample (getUint8 buf 0) (getUint16le buf 1) buf)
          (genesisStep s now (getUint8 buf 0)))) := by
  unfold handleNotification
  rw [if_neg h3]
  dsimp only
  rw [if_neg hn]

theorem initState_trimmed : Trimmed initState :=
  ⟨rfl, rfl⟩

theorem handleNotification_trimmed (s : CollectorState) (now : Nat)
    (buf : List Nat) (h : Trimmed s) :
    Trimmed (handleNotification s now buf) := by
  by_cases h3 : buf.length < 3
  · unfold handleNotification
    rw [if_pos h3]
    exact h
  by_cases hn : sampleCount buf = 0
  · unfold handleNotification
    rw [if_neg h3]
    dsimp only
    rw [if_pos hn]
    exact h
  rw [handleNotification_valid s now buf h3 hn]
  exact ⟨trimList_idem _, trimList_idem _⟩

/-- Byte reads from a buffer of bytes stay below 256 (out-of-range reads
default to 0; the guarded code never performs them). -/
theorem getUint8_lt (buf : List Nat) (h : ∀ b ∈ buf, b < 256) (k : Nat) :
    getUint8 buf k < 256 := by
  unfold getUint8
  rw [List.getD_eq_getElem?_getD]
  rcases hk : buf[k]? with _ | x
  · simp
  · have hx : x ∈ buf := List.getElem?_mem hk
    simpa using h x hx

/-- Little-endian recomposition: for bytes, the bitwise-or of the shifted
components is plain positional addition. -/
theorem or24_eq_add (lo mid hi : Nat) (hlo : lo < 256) (hmid : mid < 256)
    (hhi : hi < 256) :
    lo ||| (mid <<< 8) ||| (hi <<< 16) = lo + mid * 256 + hi * 65536 := by
  have h1 : lo ||| (mid <<< 8) = mid * 256 + lo := by
    rw [Nat.lor_comm, Nat.shiftLeft_eq]
    have := (Nat.mul_add_lt_is_or (b := lo) (i := 8) (by omega) mid).symm
    rw [Nat.mul_comm (2 ^ 8) mid] at this
    norm_num at this ⊢
    omega
  have h2 : lo ||| (mid <<< 8) < 2 ^ 16 := by
    rw [h1]
    omega
  have h3 : (lo ||| (mid <<< 8)) ||| (hi <<< 16) =
      hi * 65536 + (lo ||| (mid <<< 8)) := by
    rw [Nat.lor_comm, Nat.shiftLeft_eq]
    have := (Nat.mul_add_lt_is_or (b := lo ||| (mid <<< 8)) (i := 16) h2 hi).symm
    rw [Nat.mul_comm (2 ^ 16) hi] at this
    norm_num at this ⊢
    omega
  rw [h3, h1]
  omega

/-- A processed notification never disturbs a genesis slot already set to
a positive (wall-clock) time: the JS truthiness guard only rewrites a
slot holding `null` or `0`. -/
theorem genesisTS_preserved (s : CollectorState) (g t : Nat)
    (hg : s.genesisTS t = some g) (hpos : 0 < g) (now : Nat)
    (buf : List Nat) :
    (handleNotification s now buf).genesisTS t = some g := by
  by_cases h3 : buf.length < 3
  · unfold handleNotification
    rw [if_pos h3]
    exact hg
  by_cases hn : sampleCount buf = 0
  · unfold handleNotification
    rw [if_neg h3]
    dsimp only
    rw [if_pos hn]
    exact hg
  rw [handleNotification_valid s now buf h3 hn,
    trimPpgBuffer_genesisTS, trimAccBuffer_genesisTS, sampleLoop_genesisTS]
  by_cases hpt : t = getUint8 buf 0
  · subst hpt
    rw [genesisStep_genesisTS_self, hg]
    simp [jsFalsy, Nat.pos_iff_ne_zero.mp hpos]
  · rw [genesisStep_genesisTS_other _ _ _ _ hpt]
    exact hg

/-- On the first valid packet of a type (slot still `none`), the slot is
set to the notification's wall-clock time. -/
theorem genesisTS_set_first (s : CollectorState) (now : Nat)
    (buf : List Nat) (t : Nat) (hnone : s.genesisTS t = none)
    (ht : getUint8 buf 0 = t) (h3 : ¬ buf.length < 3)
    (hn : sampleCount buf ≠ 0) :
    (handleNotification s now buf).genesisTS t = some now := by
  rw [handleNotification_valid s now buf h3 hn,
    trimPpgBuffer_genesisTS, trimAccBuffer_genesisTS, sampleLoop_genesisTS]
  subst ht
  rw [genesisStep_genesisTS_self, hnone]
  simp [jsFalsy]

/-- Packets failing either guard leave the state untouched (helper shared
by several frame arguments below). -/
theorem handleNotification_noop (s : CollectorState) (now : Nat)
    (buf : List Nat) (h : buf.length < 3 ∨ sampleCount buf = 0) :
    handleNotification s now buf = s := by
  unfold handleNotification
  rcases h with h | h
  · rw [if_pos h]
  · by_cases h3 : buf.length < 3
    · rw [if_pos h3]
    · rw [if_neg h3]
      dsimp only
      rw [if_pos h]

/-! ## Claim theorems -/

/-- C4: the decoder maps the `i`-th consecutive 3-byte payload group
`[low, mid, high]` to `low ||| (mid <<< 8) ||| (high <<< 16)`, which for
byte inputs is the positional value `low + mid*256 + high*65536`; the
triplet `[0x01, 0x02, 0x03]` decodes to 197121, and every decoded value
of a byte buffer lies in `[0, 2^24 − 1]`. -/
theorem claim_C4_decoder :
    sampleVal [1, 0, 0, 1, 2, 3] 0 = 197121 ∧
    ∀ (buf : List Nat) (i : Nat), (∀ b ∈ buf, b < 256) →
      sampleVal buf i =
        getUint8 buf (3 + i * 3) + getUint8 buf (3 + i * 3 + 1) * 256 +
          getUint8 buf (3 + i * 3 + 2) * 65536 ∧
      sampleVal buf i < 2 ^ 24 := by
  constructor
  · decide
  · intro buf i h
    have hlo := getUint8_lt buf h (3 + i * 3)
    have hmid := getUint8_lt buf h (3 + i * 3 + 1)
    have hhi := getUint8_lt buf h (3 + i * 3 + 2)
    constructor
    · unfold sampleVal
      exact or24_eq_add _ _ _ hlo hmid hhi
    · unfold sampleVal
      rw [or24_eq_add _ _ _ hlo hmid hhi]
      omega

/-- Witness for C4 at the concrete byte buffer `[1, 0, 0, 1, 2, 3]`. -/
theorem claim_C4_decoder_witness :
    (∀ b ∈ [1, 0, 0, 1, 2, 3], b < 256) ∧
    (sampleVal [1, 0, 0, 1, 2, 3] 0 =
        getUint8 [1, 0, 0, 1, 2, 3] (3 + 0 * 3) +
          getUint8 [1, 0, 0, 1, 2, 3] (3 + 0 * 3 + 1) * 256 +
          getUint8 [1, 0, 0, 1, 2, 3] (3 + 0 * 3 + 2) * 65536 ∧
      sampleVal [1, 0, 0, 1, 2, 3] 0 < 2 ^ 24) :=
  ⟨by decide, claim_C4_decoder.2 [1, 0, 0, 1, 2, 3] 0 (by decide)⟩

/-- C5: a notification shorter than the 3-byte header, or one whose
derived sample count is zero, leaves the whole collector state untouched
— genesis, both sliding buffers and the record log (and, the handler
being a total function, no error is raised). -/
theorem claim_C5_malformed (s : CollectorState) (now : Nat)
    (buf : List Nat) (h : buf.length < 3 ∨ sampleCount buf = 0) :
    handleNotification s now buf = s := by
  unfold handleNotification
  rcases h with h | h
  · rw [if_pos h]
  · by_cases h3 : buf.length < 3
    · rw [if_pos h3]
    · rw [if_neg h3]
      dsimp only
      rw [if_pos h]

/-- Witness for C5 at a 4-byte buffer (header plus one stray byte, so
`sample_count = 0`). -/
theorem claim_C5_malformed_witness :
    (([1, 0, 0, 9] : List Nat).length < 3 ∨ sampleCount [1, 0, 0, 9] = 0) ∧
    handleNotification initState 7 [1, 0, 0, 9] = initState :=
  ⟨Or.inr (by decide),
    claim_C5_malformed initState 7 [1, 0, 0, 9] (Or.inr (by decide))⟩

/-- C8: `stop` only clears the connection flag: genesis state, both
sliding buffers and the record log are unchanged, so the snapshot and
export accessors return after `stop` exactly what they returned before. -/
theorem claim_C8_stop_frame (s : CollectorState) :
    (stop s).genesisTS = s.genesisTS ∧
    (stop s).csvRows = s.csvRows ∧
    (stop s).accDataPoints = s.accDataPoints ∧
    (stop s).ppgDataPoints = s.ppgDataPoints ∧
    getAccData (stop s) = getAccData s ∧
    getPpgData (stop s) = getPpgData s ∧
    downloadCSV (stop s) = downloadCSV s := by
  unfold stop getAccData getPpgData downloadCSV
  split <;> simp

/-- C3: on timestamp-sorted contents, entries remaining after a trim
differ pairwise by at most 60000 ms, and the trim discards exactly the
prefix of entries strictly older than `latest − 60000` (keeping the first
index at or above the cutoff and everything after it); `trimAccBuffer`
and `trimPpgBuffer` are exactly this operation on their buffer. -/
theorem claim_C3_trim_window :
    (∀ (l : List SensorDataPoint) (last : SensorDataPoint),
      l.getLast? = some last →
      l.Pairwise (fun a b => a.timestamp_ms ≤ b.timestamp_ms) →
      (∀ a ∈ trimList l, ∀ b ∈ trimList l,
        a.timestamp_ms - b.timestamp_ms ≤ 60000) ∧
      trimList l = l.dropWhile (fun d =>
        decide (d.timestamp_ms < last.timestamp_ms - BUFFER_DURATION_MS))) ∧
    (∀ s : CollectorState,
      (trimAccBuffer s).accDataPoints = trimList s.accDataPoints ∧
      (trimPpgBuffer s).ppgDataPoints = trimList s.ppgDataPoints) := by
  constructor
  · intro l last hl hp
    have hdw := trimList_eq_dropWhile l last hl
    constructor
    · intro a ha b hb
      rw [hdw] at ha hb
      have hsub : ∀ x ∈ l.dropWhile (fun d =>
          decide (d.timestamp_ms < last.timestamp_ms - BUFFER_DURATION_MS)),
          x ∈ l :=
        fun x hx => (List.dropWhile_sublist _).subset hx
      have hub := pairwise_le_getLast l last hl hp a (hsub a ha)
      have hlb := dropWhile_mem_ge
        (last.timestamp_ms - BUFFER_DURATION_MS) l hp b hb
      have hB : BUFFER_DURATION_MS = 60000 := by
        norm_num [BUFFER_DURATION_MS]
      rw [hB] at hlb
      linarith
    · exact hdw
  · intro s
    exact ⟨rfl, rfl⟩

/-- Witness for C3 at a singleton sorted buffer. -/
theorem claim_C3_trim_window_witness :
    (([{ timestamp_ms := 0, value := 1, type := PACKET_TYPE_ACC }] :
        List SensorDataPoint).getLast? =
      some { timestamp_ms := 0, value := 1, type := PACKET_TYPE_ACC }) ∧
    (([{ timestamp_ms := 0, value := 1, type := PACKET_TYPE_ACC }] :
        List SensorDataPoint).Pairwise
      (fun a b => a.timestamp_ms ≤ b.timestamp_ms)) ∧
    ((∀ a ∈ trimList [{ timestamp_ms := 0, value := 1, type := PACKET_TYPE_ACC }],
        ∀ b ∈ trimList [{ timestamp_ms := 0, value := 1, type := PACKET_TYPE_ACC }],
        a.timestamp_ms - b.timestamp_ms ≤ 60000) ∧
      trimList [{ timestamp_ms := 0, value := 1, type := PACKET_TYPE_ACC }] =
        List.dropWhile (fun d => decide (d.timestamp_ms <
            ({ timestamp_ms := 0, value := 1, type := PACKET_TYPE_ACC } :
              SensorDataPoint).timestamp_ms - BUFFER_DURATION_MS))
          [{ timestamp_ms := 0, value := 1, type := PACKET_TYPE_ACC }]) :=
  ⟨rfl, List.Pairwise.cons (by simp) List.Pairwise.nil,
    claim_C3_trim_window.1 _ _ rfl
      (List.Pairwise.cons (by simp) List.Pairwise.nil)⟩

/-- C2: the genesis epoch of a type is assigned when the first valid
packet (length ≥ 3, sample count ≥ 1) of that type is processed, taking
that notification's wall-clock time; once a slot holds a positive time
(as every `Date.now()` value is), no later notification of any type — one
step or a whole event sequence — changes it. -/
theorem claim_C2_genesis_once :
    (∀ (s : CollectorState) (now : Nat) (buf : List Nat) (t : Nat),
      s.genesisTS t = none → getUint8 buf 0 = t → ¬ buf.length < 3 →
      sampleCount buf ≠ 0 →
      (handleNotification s now buf).genesisTS t = some now) ∧
    (∀ (s : CollectorState) (g t : Nat), s.genesisTS t = some g → 0 < g →
      ∀ (now : Nat) (buf : List Nat),
        (handleNotification s now buf).genesisTS t = some g) ∧
    (∀ (s : CollectorState) (g t : Nat), s.genesisTS t = some g → 0 < g →
      ∀ evs : List (Nat × List Nat),
        (processEvents s evs).genesisTS t = some g) := by
  refine ⟨genesisTS_set_first, genesisTS_preserved, ?_⟩
  intro s g t hg hpos evs
  induction evs generalizing s with
  | nil => exact hg
  | cons e evs ih =>
      unfold processEvents
      rw [List.foldl_cons]
      exact ih _ (genesisTS_preserved s g t hg hpos e.1 e.2)

/-- Witness for C2: a first ACC packet from the fresh state sets the slot
to its arrival time; a state with the ACC slot at 5 keeps it across a
later ACC notification and across a two-event session. -/
theorem claim_C2_genesis_once_witness :
    (initState.genesisTS PACKET_TYPE_ACC = none ∧
      getUint8 [1, 0, 0, 5, 0, 0] 0 = PACKET_TYPE_ACC ∧
      ¬ ([1, 0, 0, 5, 0, 0] : List Nat).length < 3 ∧
      sampleCount [1, 0, 0, 5, 0, 0] ≠ 0 ∧
      (handleNotification initState 1000 [1, 0, 0, 5, 0, 0]).genesisTS
        PACKET_TYPE_ACC = some 1000) ∧
    (genesisOneState.genesisTS PACKET_TYPE_ACC = some 5 ∧ 0 < 5 ∧
      (handleNotification genesisOneState 1000
        [1, 0, 0, 5, 0, 0]).genesisTS PACKET_TYPE_ACC = some 5) ∧
    (processEvents genesisOneState
        [(1000, [1, 0, 0, 5, 0, 0]), (2000, [2, 0, 0, 7, 0, 0])]).genesisTS
      PACKET_TYPE_ACC = some 5 :=
  ⟨⟨rfl, rfl, by decide, by decide,
      claim_C2_genesis_once.1 initState 1000 [1, 0, 0, 5, 0, 0]
        PACKET_TYPE_ACC rfl rfl (by decide) (by decide)⟩,
    ⟨rfl, by decide,
      claim_C2_genesis_once.2.1 genesisOneState 5 PACKET_TYPE_ACC rfl
        (by decide) 1000 [1, 0, 0, 5, 0, 0]⟩,
    claim_C2_genesis_once.2.2 genesisOneState 5 PACKET_TYPE_ACC rfl
      (by decide) [(1000, [1, 0, 0, 5, 0, 0]), (2000, [2, 0, 0, 7, 0, 0])]⟩

/-- C1: on every valid packet with counter `c`, the sample at 0-based
index `i` is logged with timestamp `genesis_ACC + (c*5 + i)*16` (type
ACC) resp. `genesis_PPG + (c*5 + i)*2.5` (type PPG), in exact arithmetic
(`genesis` being the per-type epoch in effect after the genesis block);
and from a fresh collector, an ACC packet with counter 0 carrying samples
10, 20, 30 followed by one with counter 1 carrying 40, 50, 60 yields
exactly the timestamps `T, T+16, T+32, T+80, T+96, T+112` for genesis
`T` — the 48 ms gap is reproduced, not corrected. -/
theorem claim_C1_timestamps :
    (∀ (s : CollectorState) (now : Nat) (buf : List Nat),
      getUint8 buf 0 = PACKET_TYPE_ACC → ¬ buf.length < 3 →
      sampleCount buf ≠ 0 →
      (handleNotification s now buf).csvRows =
        (genesisStep s now PACKET_TYPE_ACC).csvRows ++
          (List.range (sampleCount buf)).map (fun i =>
            [Cell.num
              ((((genesisStep s now PACKET_TYPE_ACC).genesisTS
                  PACKET_TYPE_ACC).getD 0 : Rat) +
                ((getUint16le buf 1 * 5 + i : Nat) : Rat) * 16),
             Cell.num ((sampleVal buf i : Nat) : Rat)])) ∧
    (∀ (s : CollectorState) (now : Nat) (buf : List Nat),
      getUint8 buf 0 = PACKET_TYPE_PPG → ¬ buf.length < 3 →
      sampleCount buf ≠ 0 →
      (handleNotification s now buf).csvRows =
        (genesisStep s now PACKET_TYPE_PPG).csvRows ++
          (List.range (sampleCount buf)).map (fun i =>
            [Cell.num
              ((((genesisStep s now PACKET_TYPE_PPG).genesisTS
                  PACKET_TYPE_PPG).getD 0 : Rat) +
                ((getUint16le buf 1 * 5 + i : Nat) : Rat) * 2.5),
             Cell.num ((sampleVal buf i : Nat) : Rat)])) ∧
    (∀ (T now2 : Nat), 0 < T →
      ((handleNotification (handleNotification initState T
          [1, 0, 0, 10, 0, 0, 20, 0, 0, 30, 0, 0]) now2
          [1, 1, 0, 40, 0, 0, 50, 0, 0, 60, 0, 0]).accDataPoints.map
        (fun d => d.timestamp_ms)) =
        [(T : Rat), (T : Rat) + 16, (T : Rat) + 32,
         (T : Rat) + 80, (T : Rat) + 96, (T : Rat) + 112]) := by
  refine ⟨?_, ?_, ?_⟩
  · intro s now buf ht h3 hn
    rw [handleNotification_valid s now buf h3 hn,
      trimPpgBuffer_csvRows, trimAccBuffer_csvRows, ht, sampleLoop_acc]
    simp [accTs, ACC_SAMPLE_PERIOD_MS]
  · intro s now buf ht h3 hn
    rw [handleNotification_valid s now buf h3 hn,
      trimPpgBuffer_csvRows, trimAccBuffer_csvRows, ht, sampleLoop_ppg]
    simp [ppgTs, PPG_SAMPLE_PERIOD_MS]
  · intro T now2 hT
    have hT' : (T == 0) = false := by
      simp [Nat.pos_iff_ne_zero.mp hT]
    norm_num [handleNotification, genesisStep, processSample, trimAccBuffer,
      trimPpgBuffer, trimList, jsFindIndex, jsFalsy, initState, sampleCount,
      sampleVal, getUint8, getUint16le, accTs, PACKET_TYPE_ACC,
      PACKET_TYPE_PPG, ACC_SAMPLE_PERIOD_MS, List.range_succ,
      BUFFER_DURATION_MS, hT']

/-- Witness for C1: the ACC and PPG row formulas at concrete single
packets, and the two-packet gap scenario at `T = 1000`. -/
theorem claim_C1_timestamps_witness :
    ((handleNotification initState 1000 [1, 0, 0, 5, 0, 0]).csvRows =
      (genesisStep initState 1000 PACKET_TYPE_ACC).csvRows ++
        (List.range (sampleCount [1, 0, 0, 5, 0, 0])).map (fun i =>
          [Cell.num
            ((((genesisStep initState 1000 PACKET_TYPE_ACC).genesisTS
                PACKET_TYPE_ACC).getD 0 : Rat) +
              ((getUint16le [1, 0, 0, 5, 0, 0] 1 * 5 + i : Nat) : Rat) * 16),
           Cell.num ((sampleVal [1, 0, 0, 5, 0, 0] i : Nat) : Rat)])) ∧
    ((handleNotification initState 2000 [2, 0, 0, 7, 0, 0]).csvRows =
      (genesisStep initState 2000 PACKET_TYPE_PPG).csvRows ++
        (List.range (sampleCount [2, 0, 0, 7, 0, 0])).map (fun i =>
          [Cell.num
            ((((genesisStep initState 2000 PACKET_TYPE_PPG).genesisTS
                PACKET_TYPE_PPG).getD 0 : Rat) +
              ((getUint16le [2, 0, 0, 7, 0, 0] 1 * 5 + i : Nat) : Rat) * 2.5),
           Cell.num ((sampleVal [2, 0, 0, 7, 0, 0] i : Nat) : Rat)])) ∧
    ((handleNotification (handleNotification initState 1000
        [1, 0, 0, 10, 0, 0, 20, 0, 0, 30, 0, 0]) 1080
        [1, 1, 0, 40, 0, 0, 50, 0, 0, 60, 0, 0]).accDataPoints.map
      (fun d => d.timestamp_ms)) =
      [((1000 : Nat) : Rat), ((1000 : Nat) : Rat) + 16,
       ((1000 : Nat) : Rat) + 32, ((1000 : Nat) : Rat) + 80,
       ((1000 : Nat) : Rat) + 96, ((1000 : Nat) : Rat) + 112] :=
  ⟨claim_C1_timestamps.1 initState 1000 [1, 0, 0, 5, 0, 0] rfl
      (by decide) (by decide),
    claim_C1_timestamps.2.1 initState 2000 [2, 0, 0, 7, 0, 0] rfl
      (by decide) (by decide),
    claim_C1_timestamps.2.2 1000 1080 (by decide)⟩

/-- C7: the export is the comma/newline join of the record log with no
escaping; a fresh collector that received one ACC packet at wall-clock
1000 carrying the two samples 5 and 6 (hence rows with timestamps 1000
and 1016) and nothing else exports exactly
`"timestamp_ms,magnitude_ug\n1000,5\n1016,6"`. -/
theorem claim_C7_export :
    downloadCSV
        (handleNotification initState 1000 [1, 0, 0, 5, 0, 0, 6, 0, 0]) =
      "timestamp_ms,magnitude_ug\n1000,5\n1016,6" := by
  norm_num [handleNotification, genesisStep, processSample, trimAccBuffer,
    trimPpgBuffer, trimList, jsFindIndex, jsFalsy, initState, sampleCount,
    sampleVal, getUint8, getUint16le, accTs, PACKET_TYPE_ACC,
    PACKET_TYPE_PPG, ACC_SAMPLE_PERIOD_MS, List.range_succ,
    BUFFER_DURATION_MS, accHeaderRow, downloadCSV, renderCell,
    jsNumToString]
  decide

/-- C6 as stated is false on the code: the first packet of an
unrecognized type byte does contribute a row to the record log — the
truthiness genesis check passes for the never-seen type and pushes the
`"timestamp_ms,green"` header row. -/
theorem claim_C6_counterexample :
    (handleNotification initState 5 [3, 0, 0, 7, 7, 7]).csvRows ≠
      initState.csvRows := by
  norm_num [handleNotification, genesisStep, processSample, trimAccBuffer,
    trimPpgBuffer, trimList, jsFindIndex, jsFalsy, initState, sampleCount,
    sampleVal, getUint8, getUint16le, PACKET_TYPE_ACC, PACKET_TYPE_PPG,
    List.range_succ, BUFFER_DURATION_MS, ppgHeaderRow]

/-- C6 amended: a valid-length packet whose type byte is outside {1, 2}
appends no sample row and leaves both (trimmed) sliding buffers
unchanged; it does consume the genesis/header-emission check: on the
first such packet of that type the genesis slot is set to the current
time and a `"timestamp_ms,green"` header row is appended to the record
log, and on later ones nothing changes; other types' genesis slots are
untouched. -/
theorem claim_C6_unknown_type (s : CollectorState) (now : Nat)
    (buf : List Nat) (hta : getUint8 buf 0 ≠ PACKET_TYPE_ACC)
    (htp : getUint8 buf 0 ≠ PACKET_TYPE_PPG) (h3 : ¬ buf.length < 3)
    (hn : sampleCount buf ≠ 0) (htr : Trimmed s) :
    (handleNotification s now buf).accDataPoints = s.accDataPoints ∧
    (handleNotification s now buf).ppgDataPoints = s.ppgDataPoints ∧
    (handleNotification s now buf).csvRows = s.csvRows ++
      (if jsFalsy (s.genesisTS (getUint8 buf 0)) then [ppgHeaderRow]
       else []) ∧
    (handleNotification s now buf).genesisTS (getUint8 buf 0) =
      (if jsFalsy (s.genesisTS (getUint8 buf 0)) then some now
       else s.genesisTS (getUint8 buf 0)) ∧
    (∀ t, t ≠ getUint8 buf 0 →
      (handleNotification s now buf).genesisTS t = s.genesisTS t) := by
  rw [handleNotification_valid s now buf h3 hn,
    sampleLoop_other _ _ _ _ _ hta htp]
  refine ⟨?_, ?_, ?_, ?_, ?_⟩
  · show trimList ((genesisStep s now (getUint8 buf 0)).accDataPoints) =
      s.accDataPoints
    rw [genesisStep_accDataPoints]
    exact htr.1
  · show trimList ((genesisStep s now (getUint8 buf 0)).ppgDataPoints) =
      s.ppgDataPoints
    rw [genesisStep_ppgDataPoints]
    exact htr.2
  · show (genesisStep s now (getUint8 buf 0)).csvRows = _
    rw [genesisStep_csvRows, if_neg hta]
  · show (genesisStep s now (getUint8 buf 0)).genesisTS _ = _
    exact genesisStep_genesisTS_self s now (getUint8 buf 0)
  · intro t ht
    show (genesisStep s now (getUint8 buf 0)).genesisTS t = s.genesisTS t
    exact genesisStep_genesisTS_other s now (getUint8 buf 0) t ht

/-- Witness for the amended C6 at the fresh collector and a first
type-3 packet. -/
theorem claim_C6_unknown_type_witness :
    (getUint8 [3, 0, 0, 7, 7, 7] 0 ≠ PACKET_TYPE_ACC) ∧
    (getUint8 [3, 0, 0, 7, 7, 7] 0 ≠ PACKET_TYPE_PPG) ∧
    (¬ ([3, 0, 0, 7, 7, 7] : List Nat).length < 3) ∧
    (sampleCount [3, 0, 0, 7, 7, 7] ≠ 0) ∧
    Trimmed initState ∧
    ((handleNotification initState 5 [3, 0, 0, 7, 7, 7]).accDataPoints =
        initState.accDataPoints ∧
      (handleNotification initState 5 [3, 0, 0, 7, 7, 7]).ppgDataPoints =
        initState.ppgDataPoints ∧
      (handleNotification initState 5 [3, 0, 0, 7, 7, 7]).csvRows =
        initState.csvRows ++
          (if jsFalsy (initState.genesisTS (getUint8 [3, 0, 0, 7, 7, 7] 0))
           then [ppgHeaderRow] else []) ∧
      (handleNotification initState 5 [3, 0, 0, 7, 7, 7]).genesisTS
          (getUint8 [3, 0, 0, 7, 7, 7] 0) =
        (if jsFalsy (initState.genesisTS (getUint8 [3, 0, 0, 7, 7, 7] 0))
         then some 5
         else initState.genesisTS (getUint8 [3, 0, 0, 7, 7, 7] 0)) ∧
      (∀ t, t ≠ getUint8 [3, 0, 0, 7, 7, 7] 0 →
        (handleNotification initState 5 [3, 0, 0, 7, 7, 7]).genesisTS t =
          initState.genesisTS t)) :=
  ⟨by decide, by decide, by decide, by decide, ⟨rfl, rfl⟩,
    claim_C6_unknown_type initState 5 [3, 0, 0, 7, 7, 7] (by decide)
      (by decide) (by decide) (by decide) ⟨rfl, rfl⟩⟩

/-- C10: processing a packet of one sensor type leaves the other type's
state unchanged on every reachable state (both buffers trimmed — an
invariant established from `initState` and preserved by every
notification, as the first conjunct records): an ACC packet changes
neither the PPG genesis slot nor the PPG buffer, and only appends to the
record log (all previously appended rows, in particular the PPG ones,
stay in place); symmetrically for PPG packets and the ACC state. -/
theorem claim_C10_cross_type_frame :
    (Trimmed initState ∧
      ∀ (s : CollectorState) (now : Nat) (buf : List Nat),
        Trimmed s → Trimmed (handleNotification s now buf)) ∧
    (∀ (s : CollectorState) (now : Nat) (buf : List Nat), Trimmed s →
      getUint8 buf 0 = PACKET_TYPE_ACC →
      (handleNotification s now buf).ppgDataPoints = s.ppgDataPoints ∧
      (handleNotification s now buf).genesisTS PACKET_TYPE_PPG =
        s.genesisTS PACKET_TYPE_PPG ∧
      ∃ newRows,
        (handleNotification s now buf).csvRows = s.csvRows ++ newRows) ∧
    (∀ (s : CollectorState) (now : Nat) (buf : List Nat), Trimmed s →
      getUint8 buf 0 = PACKET_TYPE_PPG →
      (handleNotification s now buf).accDataPoints = s.accDataPoints ∧
      (handleNotification s now buf).genesisTS PACKET_TYPE_ACC =
        s.genesisTS PACKET_TYPE_ACC ∧
      ∃ newRows,
        (handleNotification s now buf).csvRows = s.csvRows ++ newRows) := by
  refine ⟨⟨initState_trimmed, handleNotification_trimmed⟩, ?_, ?_⟩
  · intro s now buf htr ht
    by_cases h3 : buf.length < 3
    · rw [handleNotification_noop s now buf (Or.inl h3)]
      exact ⟨rfl, rfl, [], by simp⟩
    by_cases hn : sampleCount buf = 0
    · rw [handleNotification_noop s now buf (Or.inr hn)]
      exact ⟨rfl, rfl, [], by simp⟩
    rw [handleNotification_valid s now buf h3 hn, ht, sampleLoop_acc]
    refine ⟨?_, ?_, ?_⟩
    · show trimList ((genesisStep s now PACKET_TYPE_ACC).ppgDataPoints) =
        s.ppgDataPoints
      rw [genesisStep_ppgDataPoints]
      exact htr.2
    · show (genesisStep s now PACKET_TYPE_ACC).genesisTS PACKET_TYPE_PPG =
        s.genesisTS PACKET_TYPE_PPG
      exact genesisStep_genesisTS_other _ _ _ _ (by decide)
    · rw [trimPpgBuffer_csvRows, trimAccBuffer_csvRows]
      dsimp only
      rw [genesisStep_csvRows, List.append_assoc]
      exact ⟨_, rfl⟩
  · intro s now buf htr ht
    by_cases h3 : buf.length < 3
    · rw [handleNotification_noop s now buf (Or.inl h3)]
      exact ⟨rfl, rfl, [], by simp⟩
    by_cases hn : sampleCount buf = 0
    · rw [handleNotification_noop s now buf (Or.inr hn)]
      exact ⟨rfl, rfl, [], by simp⟩
    rw [handleNotification_valid s now buf h3 hn, ht, sampleLoop_ppg]
    refine ⟨?_, ?_, ?_⟩
    · show trimList ((genesisStep s now PACKET_TYPE_PPG).accDataPoints) =
        s.accDataPoints
      rw [genesisStep_accDataPoints]
      exact htr.1
    · show (genesisStep s now PACKET_TYPE_PPG).genesisTS PACKET_TYPE_ACC =
        s.genesisTS PACKET_TYPE_ACC
      exact genesisStep_genesisTS_other _ _ _ _ (by decide)
    · rw [trimPpgBuffer_csvRows, trimAccBuffer_csvRows]
      dsimp only
      rw [genesisStep_csvRows, List.append_assoc]
      exact ⟨_, rfl⟩

/-- Witness for C10: an ACC packet and a PPG packet on the fresh
(trimmed) collector. -/
theorem claim_C10_cross_type_frame_witness :
    Trimmed initState ∧
    (getUint8 [1, 0, 0, 5, 0, 0] 0 = PACKET_TYPE_ACC) ∧
    ((handleNotification initState 1000 [1, 0, 0, 5, 0, 0]).ppgDataPoints =
        initState.ppgDataPoints ∧
      (handleNotification initState 1000 [1, 0, 0, 5, 0, 0]).genesisTS
          PACKET_TYPE_PPG = initState.genesisTS PACKET_TYPE_PPG ∧
      ∃ newRows,
        (handleNotification initState 1000 [1, 0, 0, 5, 0, 0]).csvRows =
          initState.csvRows ++ newRows) ∧
    (getUint8 [2, 0, 0, 5, 0, 0] 0 = PACKET_TYPE_PPG) ∧
    ((handleNotification initState 1000 [2, 0, 0, 5, 0, 0]).accDataPoints =
        initState.accDataPoints ∧
      (handleNotification initState 1000 [2, 0, 0, 5, 0, 0]).genesisTS
          PACKET_TYPE_ACC = initState.genesisTS PACKET_TYPE_ACC ∧
      ∃ newRows,
        (handleNotification initState 1000 [2, 0, 0, 5, 0, 0]).csvRows =
          initState.csvRows ++ newRows) :=
  ⟨⟨rfl, rfl⟩, rfl,
    claim_C10_cross_type_frame.2.1 initState 1000 [1, 0, 0, 5, 0, 0]
      ⟨rfl, rfl⟩ rfl,
    rfl,
    claim_C10_cross_type_frame.2.2 initState 1000 [2, 0, 0, 5, 0, 0]
      ⟨rfl, rfl⟩ rfl⟩

/-- C9 as stated is false on the code: `getAccData` returns the internal
array object itself, so the in-place `push` performed while processing a
later packet is visible through a snapshot taken earlier — here the
snapshot of the fresh collector's (empty) ACC buffer observes the sample
appended afterwards. -/
theorem claim_C9_counterexample :
    derefH (handleNotificationH hInit 1000 [1, 0, 0, 5, 0, 0])
        (getAccDataH hInit) ≠
      derefH hInit (getAccDataH hInit) := by
  norm_num [handleNotificationH, genesisStepH, processSampleH, pushRef,
    trimAccBufferH, trimPpgBufferH, derefH, getAccDataH, hInit, jsFalsy,
    sampleCount, sampleVal, getUint8, getUint16le, accTs, PACKET_TYPE_ACC,
    PACKET_TYPE_PPG, ACC_SAMPLE_PERIOD_MS, List.range_succ, jsFindIndex,
    BUFFER_DURATION_MS]

/-- C9 amended: the snapshot accessors return the internal array
reference itself, not an independent copy; consequently a later in-place
append (a processed packet that triggers no trim slice) is reflected in
a previously returned snapshot — the old snapshot reference still is the
collector's current buffer — and mutating the returned array would alter
the collector's internal sequence.  Concretely: a snapshot taken of the
fresh collector reads `[]`, and after one ACC packet (counter 0, value 5,
arrival 1000) the same snapshot reference reads the appended sample. -/
theorem claim_C9_snapshot_alias :
    (∀ s : HCollector,
      getAccDataH s = s.accRef ∧ getPpgDataH s = s.ppgRef) ∧
    derefH hInit (getAccDataH hInit) = [] ∧
    getAccDataH (handleNotificationH hInit 1000 [1, 0, 0, 5, 0, 0]) =
      getAccDataH hInit ∧
    derefH (handleNotificationH hInit 1000 [1, 0, 0, 5, 0, 0])
        (getAccDataH hInit) =
      [{ timestamp_ms := 1000, value := 5, type := PACKET_TYPE_ACC }] := by
  refine ⟨fun s => ⟨rfl, rfl⟩, rfl, ?_, ?_⟩ <;>
    norm_num [handleNotificationH, genesisStepH, processSampleH, pushRef,
      trimAccBufferH, trimPpgBufferH, derefH, getAccDataH, hInit, jsFalsy,
      sampleCount, sampleVal, getUint8, getUint16le, accTs,
      PACKET_TYPE_ACC, PACKET_TYPE_PPG, ACC_SAMPLE_PERIOD_MS,
      List.range_succ, jsFindIndex, BUFFER_DURATION_MS]

end Seismi
